import Mathlib

/-!
Shallow embedding of the `blossom_wrapper` Python package
(`src/blossom_wrapper/__init__.py`).

The package is a thin synchronous HTTP client.  We embed it as pure
functions over an explicit session state:

* Python dicts with string keys become insertion-ordered association
  lists (`Dict`); `d[k] = v` / `d.update(...)` become `dictInsert` /
  `dictUpdate`.  Python mutates dicts in place; the embedding threads the
  mutated dict through and returns it, so the returned dict is the value
  the caller's aliased dict holds after the call.
* The `requests.Session` becomes `SessionState`: the cookie jar, a
  counter of requests issued so far, and a log of the requests sent (in
  order).  The network is an environment `Env : Nat → HttpResponse`
  giving the response to the n-th request; sending a request appends it
  to the log, bumps the counter and folds the response's cookies into
  the jar (`send`).
* `response.json()` is modelled by storing the parsed body (`JSON`)
  directly in the response.
* Exceptions (`ValueError` from the constructor, `HTTPError` from
  `raise_for_status`) become `Except`.
-/

namespace BlossomWrapper

/-- JSON-like values: the Python dicts/lists the wrapper sends as request
bodies and the parsed bodies (`response.json()`) it receives. -/
inductive JSON where
  | null
  | bool (b : Bool)
  | num (n : Int)
  | str (s : String)
  | arr (elems : List JSON)
  | obj (fields : List (String × JSON))

/-- A Python `dict` with string keys, as an insertion-ordered association
list (Python dicts preserve insertion order and have unique keys). -/
abbrev Dict := List (String × JSON)

/-- Python `d[k]` lookup (first matching key). -/
def dictLookup : Dict → String → Option JSON
  | [], _ => none
  | (k', v) :: d, k => if k' = k then some v else dictLookup d k

/-- Python `d[k] = v`: overwrite the entry in place if the key exists
(keeping its position), otherwise append a new entry. -/
def dictInsert : Dict → String → JSON → Dict
  | [], k, v => [(k, v)]
  | (k', w) :: d, k, v => if k' = k then (k, v) :: d else (k', w) :: dictInsert d k v

/-- Python `d.update({...})`: insert each pair of the argument in order. -/
def dictUpdate (d : Dict) (kvs : List (String × JSON)) : Dict :=
  kvs.foldl (fun acc p => dictInsert acc p.1 p.2) d

/-- The session cookie jar, keyed by cookie name. -/
abbrev CookieJar := List (String × String)

/-- Model of `jar.get(name)` and of `name in jar` on the requests cookie
jar. -/
def jarLookup : CookieJar → String → Option String
  | [], _ => none
  | (k', v) :: j, k => if k' = k then some v else jarLookup j k

/-- Setting one cookie in the jar (a response cookie overwrites an
existing cookie of the same name). -/
def jarSet : CookieJar → String → String → CookieJar
  | [], k, v => [(k, v)]
  | (k', w) :: j, k, v => if k' = k then (k, v) :: j else (k', w) :: jarSet j k v

/-- Folding all cookies set by a response into the session jar. -/
def jarUpdate (j : CookieJar) (cookies : List (String × String)) : CookieJar :=
  cookies.foldl (fun acc p => jarSet acc p.1 p.2) j

/-- An outgoing HTTP request as prepared by `_call`: method, joined URL,
form body and query parameters.  URLs/paths are lists of characters. -/
structure HttpRequest where
  method : String
  url : List Char
  data : Dict
  params : Dict

/-- An HTTP response: status code, parsed JSON body (`response.json()`),
and the cookies the response sets on the session jar. -/
structure HttpResponse where
  status_code : Nat
  body : JSON
  set_cookies : List (String × String)

/-- The mutable state of the `requests.Session`: cookie jar, number of
requests issued so far, and the log of issued requests in order. -/
structure SessionState where
  cookies : CookieJar
  count : Nat
  sent : List HttpRequest

/-- The network environment: the response the server gives to the n-th
request issued on the session (counting from 0). -/
def Env := Nat → HttpResponse

/-- Model of `self.http.send(prepped)`: issue a request, obtain the response to
the current request index, record the request and fold the response's
cookies into the jar. -/
def send (env : Env) (req : HttpRequest) (s : SessionState) :
    HttpResponse × SessionState :=
  let resp := env s.count
  (resp,
   { cookies := jarUpdate s.cookies resp.set_cookies,
     count := s.count + 1,
     sent := s.sent ++ [req] })

/-- Model of `path.startswith("/")` (one leading separator). -/
def startsWithSlash (p : List Char) : Bool :=
  match p with
  | [] => false
  | c :: _ => c = '/'

/-- Model of `path.endswith("/")`. -/
def endsWithSlash (p : List Char) : Bool :=
  match p.getLast? with
  | some c => c = '/'
  | none => false

/-- Whether a path begins with two leading separators: the one shape on
which stripping a single leading separator is not idempotent. -/
def startsWithDoubleSlash (p : List Char) : Bool :=
  match p with
  | c :: c2 :: _ => c = '/' && c2 = '/'
  | _ => false

/-- The statement `path = path[1:]` guarded by `path.startswith("/")`. -/
def stripLeadingSlash (p : List Char) : List Char :=
  if startsWithSlash p then p.tail else p

/-- The statement `path += "/"` guarded by `not path.endswith("/")`. -/
def ensureTrailingSlash (p : List Char) : List Char :=
  if endsWithSlash p then p else p ++ ['/']

/-- The two path-normalization statements of `_call` (strip one leading
`/`, append a trailing `/` if absent). -/
def normalizePath (p : List Char) : List Char :=
  ensureTrailingSlash (stripLeadingSlash p)

/-- Split a URL at the first `://`, returning the part before (the
scheme) and the part after (netloc and path).  Part of the model of
`urllib.parse.urljoin` below. -/
def splitSchemeSep : List Char → Option (List Char × List Char)
  | [] => none
  | ':' :: '/' :: '/' :: rest => some ([], rest)
  | c :: rest =>
    match splitSchemeSep rest with
    | some (a, b) => some (c :: a, b)
    | none => none

/-- Everything up to and including the last `/` of `p` (empty if `p` has
no `/`): the directory part used by relative-reference resolution. -/
def dirPart (p : List Char) : List Char :=
  (p.reverse.dropWhile (fun c => c ≠ '/')).reverse

/-- Model of `urllib.parse.urljoin base rel` for the shapes this library
produces: `base` an absolute URL (containing `://`) and `rel` a relative
reference without a scheme component (no `:` before the first `/`).
Covers the RFC 3986 cases: network-path references (`//...`),
absolute-path references (`/...`), and path merging for relative paths
(replace everything after the last `/` of the base path).  Dot-segment
removal is not modelled (the wrapper never produces dot segments). -/
def urljoin (base rel : List Char) : List Char :=
  match splitSchemeSep base with
  | none => dirPart base ++ rel
  | some (scheme, rest) =>
    let netloc := rest.takeWhile (fun c => c ≠ '/')
    let bpath := rest.dropWhile (fun c => c ≠ '/')
    if rel.isEmpty then base
    else if startsWithDoubleSlash rel then scheme ++ (':' :: rel)
    else if startsWithSlash rel then scheme ++ ':' :: '/' :: '/' :: (netloc ++ rel)
    else
      let newPath := if bpath.isEmpty then '/' :: rel else dirPart bpath ++ rel
      scheme ++ ':' :: '/' :: '/' :: (netloc ++ newPath)

/-- The outcome tags (`BlossomStatus` enum). -/
inductive BlossomStatus where
  | already_completed
  | blacklisted
  | coc_not_accepted
  | data_missing
  | missing_prerequisite
  | not_found
  | ok
  | other_user
deriving DecidableEq

/-- The `BlossomResponse` dataclass: optional payload plus outcome tag,
both defaulted as in the source. -/
structure BlossomResponse where
  data : Option JSON := none
  status : BlossomStatus := BlossomStatus.ok

/-- Errors an endpoint call can raise: `HTTPError` from
`response.raise_for_status()` (carrying the status code), or a failure
of the Python code's own JSON access (`response.json()["results"]` on a
body without a `"results"` list). -/
inductive ApiError where
  | httpError (status : Nat)
  | jsonError

/-- Model of `response.raise_for_status()`: raises an `HTTPError` exactly for
status codes in `[400, 600)`. -/
def raise_for_status (r : HttpResponse) : Except ApiError Unit :=
  if 400 ≤ r.status_code ∧ r.status_code < 600 then
    Except.error (ApiError.httpError r.status_code)
  else Except.ok ()

/-- The `BlossomAPI` client object: the stored credentials, the base URL
for `urljoin`, and the session's `Authorization` header. -/
structure BlossomAPI where
  email : String
  password : String
  base_url : List Char
  authorization : String

/-- The constructor `BlossomAPI.__init__`: validates that all four arguments are
non-empty (raising `ValueError` otherwise), stores the credentials and
base URL, and sets the `Api-Key` authorization header on the session. -/
def BlossomAPI.init (email password api_key api_base_url : String) :
    Except String BlossomAPI :=
  if email = "" then Except.error "Need an email address!"
  else if password = "" then Except.error "Need a password!"
  else if api_key = "" then Except.error "Need an API key!"
  else if api_base_url = "" then Except.error "Need to know the API base URL!"
  else Except.ok
    { email := email, password := password,
      base_url := api_base_url.data,
      authorization := "Api-Key " ++ api_key }

/-- The request primitive `BlossomAPI._call(method, path, data, params)`.

Mirrors the source line by line: default the body and params to fresh
dicts, merge the stored credentials into the body (mutating the caller's
dict), normalize the path, and, for a non-GET method, first perform the
priming `self._call("GET", path, data, params)` before reading the
`csrftoken` cookie from the session jar and injecting
`csrfmiddlewaretoken` into the shared body dict.

The recursive priming call always has method `"GET"`, so it is unfolded
one step here: it merges the credentials into the shared dict again,
normalizes the (already normalized) path again, and sends a GET request.
Because the priming call mutates the same dict object, the body used
afterwards is the one the priming call produced (`dataInner`).

Returns the response, the final value of the caller's (mutated) body
dict, and the new session state. -/
def _call (api : BlossomAPI) (env : Env) (method : String) (path : List Char)
    (data? : Option Dict) (params? : Option Dict) (s : SessionState) :
    HttpResponse × Dict × SessionState :=
  let data := data?.getD []
  let data := dictUpdate data
    [("email", JSON.str api.email), ("password", JSON.str api.password)]
  let params := params?.getD []
  let path := normalizePath path
  let ds :=
    if method = "GET" then (data, s)
    else
      let dataInner := dictUpdate data
        [("email", JSON.str api.email), ("password", JSON.str api.password)]
      let pathInner := normalizePath path
      let sent1 := send env
        { method := "GET", url := urljoin api.base_url pathInner,
          data := dataInner, params := params } s
      let s := sent1.2
      let data := dataInner
      let data := match jarLookup s.cookies "csrftoken" with
        | some tok => dictInsert data "csrfmiddlewaretoken" (JSON.str tok)
        | none => data
      (data, s)
  let data := ds.1
  let s := ds.2
  let result := send env
    { method := method, url := urljoin api.base_url path,
      data := data, params := params } s
  (result.1, data, result.2)

/-- Verb helper `BlossomAPI.get`. -/
def BlossomAPI.get (api : BlossomAPI) (env : Env) (path : List Char)
    (data? : Option Dict) (params? : Option Dict) (s : SessionState) :
    HttpResponse × Dict × SessionState :=
  _call api env "GET" path data? params? s

/-- Verb helper `BlossomAPI.post`. -/
def BlossomAPI.post (api : BlossomAPI) (env : Env) (path : List Char)
    (data? : Option Dict) (params? : Option Dict) (s : SessionState) :
    HttpResponse × Dict × SessionState :=
  _call api env "POST" path data? params? s

/-- Verb helper `BlossomAPI.patch`. -/
def BlossomAPI.patch (api : BlossomAPI) (env : Env) (path : List Char)
    (data? : Option Dict) (params? : Option Dict) (s : SessionState) :
    HttpResponse × Dict × SessionState :=
  _call api env "PATCH" path data? params? s

/-- Model of `response.json()[k]`: field access on the parsed body. -/
def jsonField : JSON → String → Option JSON
  | JSON.obj fields, k => dictLookup fields k
  | _, _ => none

/-- Endpoint `BlossomAPI.create_user(username)`: POST `volunteer/`; 201 → ok with
payload, 422 → already_completed, anything else goes through
`raise_for_status` and returns the default response if it survives. -/
def create_user (api : BlossomAPI) (env : Env) (s : SessionState)
    (username : String) : Except ApiError BlossomResponse × SessionState :=
  let r := BlossomAPI.post api env "volunteer/".data
    (some [("username", JSON.str username)]) none s
  let response := r.1
  let s := r.2.2
  let out : Except ApiError BlossomResponse :=
    if response.status_code = 201 then
      Except.ok { data := some response.body, status := BlossomStatus.ok }
    else if response.status_code = 422 then
      Except.ok { status := BlossomStatus.already_completed }
    else
      match raise_for_status response with
      | Except.error e => Except.error e
      | Except.ok _ => Except.ok {}
  (out, s)

/-- Endpoint `BlossomAPI.get_user(username)`: GET `volunteer/` with the username
as query parameter; raise for error statuses, then dispatch on whether
`response.json()["results"]` is empty.  A body whose `"results"` field
is missing or not a list makes the Python code raise on access; that is
`ApiError.jsonError` here. -/
def get_user (api : BlossomAPI) (env : Env) (s : SessionState)
    (username : String) : Except ApiError BlossomResponse × SessionState :=
  let r := BlossomAPI.get api env "volunteer/".data none
    (some [("username", JSON.str username)]) s
  let response := r.1
  let s := r.2.2
  let out : Except ApiError BlossomResponse :=
    match raise_for_status response with
    | Except.error e => Except.error e
    | Except.ok _ =>
      match jsonField response.body "results" with
      | some (JSON.arr []) => Except.ok { status := BlossomStatus.not_found }
      | some (JSON.arr (x :: _)) => Except.ok { data := some x }
      | _ => Except.error ApiError.jsonError
  (out, s)

/-- Endpoint `BlossomAPI.claim(submission_id, username)`: PATCH
`submission/{id}/claim/` and dispatch on the status code. -/
def claim (api : BlossomAPI) (env : Env) (s : SessionState)
    (submission_id username : String) :
    Except ApiError BlossomResponse × SessionState :=
  let r := BlossomAPI.patch api env
    ("submission/".data ++ submission_id.data ++ "/claim/".data)
    (some [("username", JSON.str username)]) none s
  let response := r.1
  let s := r.2.2
  let out : Except ApiError BlossomResponse :=
    if response.status_code = 201 then
      Except.ok { data := some response.body, status := BlossomStatus.ok }
    else if response.status_code = 403 then
      Except.ok { status := BlossomStatus.coc_not_accepted }
    else if response.status_code = 404 then
      Except.ok { status := BlossomStatus.not_found }
    else if response.status_code = 409 then
      Except.ok { status := BlossomStatus.already_completed }
    else if response.status_code = 423 then
      Except.ok { status := BlossomStatus.blacklisted }
    else
      match raise_for_status response with
      | Except.error e => Except.error e
      | Except.ok _ => Except.ok {}
  (out, s)

/-- Endpoint `BlossomAPI.get_ocr_transcriptions(source)`: default a missing (or
falsy/empty) source to `"reddit"`, GET the transcribot queue with it as
query parameter, and dispatch on the status code (200 → ok with payload,
400 → missing_prerequisite with the error body as payload). -/
def get_ocr_transcriptions (api : BlossomAPI) (env : Env) (s : SessionState)
    (source? : Option String) : Except ApiError BlossomResponse × SessionState :=
  let source := match source? with
    | none => "reddit"
    | some v => if v = "" then "reddit" else v
  let r := BlossomAPI.get api env "submission/get_transcribot_queue/".data
    none (some [("source", JSON.str source)]) s
  let response := r.1
  let s := r.2.2
  let out : Except ApiError BlossomResponse :=
    if response.status_code = 200 then
      Except.ok { data := some response.body, status := BlossomStatus.ok }
    else if response.status_code = 400 then
      Except.ok { data := some response.body,
                  status := BlossomStatus.missing_prerequisite }
    else
      match raise_for_status response with
      | Except.error e => Except.error e
      | Except.ok _ => Except.ok {}
  (out, s)

/-! ## Concrete fixtures used by witnesses and counterexamples -/

/-- A concrete client with base URL `http://h/api/`. -/
def apiX : BlossomAPI :=
  { email := "e", password := "pw", base_url := "http://h/api/".data,
    authorization := "Api-Key k" }

/-- A fresh session: empty cookie jar, no requests issued. -/
def s0 : SessionState := { cookies := [], count := 0, sent := [] }

/-- A session whose jar already holds a `csrftoken` cookie from earlier
traffic. -/
def sStale : SessionState :=
  { cookies := [("csrftoken", "old")], count := 0, sent := [] }

/-- A server answering every request with 200, body `null`, no cookies. -/
def envOk : Env :=
  fun _ => { status_code := 200, body := JSON.null, set_cookies := [] }

/-- A server answering every request with 200 and setting a `csrftoken`
cookie. -/
def envCk : Env :=
  fun _ => { status_code := 200, body := JSON.null,
             set_cookies := [("csrftoken", "tok1")] }

/-- A server answering every request with status 423. -/
def env423 : Env :=
  fun _ => { status_code := 423, body := JSON.null, set_cookies := [] }

/-- A server answering every request with status 422. -/
def env422 : Env :=
  fun _ => { status_code := 422, body := JSON.null, set_cookies := [] }

/-- A server answering every request with status 500. -/
def env500 : Env :=
  fun _ => { status_code := 500, body := JSON.null, set_cookies := [] }

/-- A server answering 200 with body `{"results": []}`. -/
def envResEmpty : Env :=
  fun _ => { status_code := 200, body := JSON.obj [("results", JSON.arr [])],
             set_cookies := [] }

/-- The property that a request body carries the stored credentials:
`email` and `password` entries equal to the constructor-supplied values. -/
def AllHaveCreds (api : BlossomAPI) : List HttpRequest → Prop
  | [] => True
  | r :: rest =>
    (dictLookup r.data "email" = some (JSON.str api.email) ∧
     dictLookup r.data "password" = some (JSON.str api.password)) ∧
    AllHaveCreds api rest

/-! ## Helper lemmas -/

/-- Looking up the key just inserted gives the inserted value. -/
theorem dictLookup_dictInsert_self (d : Dict) (k : String) (v : JSON) :
    dictLookup (dictInsert d k v) k = some v := by
  induction d with
  | nil => simp [dictInsert, dictLookup]
  | cons p d ih =>
    obtain ⟨k', w⟩ := p
    by_cases h : k' = k
    · simp [dictInsert, dictLookup, h]
    · simp [dictInsert, dictLookup, h, ih]

/-- Inserting under a different key does not change a lookup. -/
theorem dictLookup_dictInsert_ne (d : Dict) (k k2 : String) (v : JSON)
    (h : k ≠ k2) : dictLookup (dictInsert d k v) k2 = dictLookup d k2 := by
  induction d with
  | nil => simp [dictInsert, dictLookup, h]
  | cons p d ih =>
    obtain ⟨k', w⟩ := p
    by_cases h' : k' = k
    · subst h'
      simp [dictInsert, dictLookup, h]
    · simp [dictInsert, dictLookup, h', ih]

/-- The function `ensureTrailingSlash` always produces a path ending in
`/`. -/
theorem endsWithSlash_ensureTrailingSlash (p : List Char) :
    endsWithSlash (ensureTrailingSlash p) = true := by
  unfold ensureTrailingSlash
  by_cases h : endsWithSlash p = true
  · rw [if_pos h]
    exact h
  · rw [if_neg h]
    simp [endsWithSlash, List.getLast?_concat]

/-- The function `ensureTrailingSlash` is idempotent. -/
theorem ensureTrailingSlash_idem (p : List Char) :
    ensureTrailingSlash (ensureTrailingSlash p) = ensureTrailingSlash p := by
  have h := endsWithSlash_ensureTrailingSlash p
  unfold ensureTrailingSlash at h ⊢
  rw [if_pos h]

/-- The function `ensureTrailingSlash` keeps the head of a non-empty
path. -/
theorem startsWithSlash_ensureTrailingSlash (c : Char) (t : List Char)
    (hc : ¬c = '/') :
    startsWithSlash (ensureTrailingSlash (c :: t)) = false := by
  unfold ensureTrailingSlash
  by_cases h : endsWithSlash (c :: t) = true <;>
    simp [h, startsWithSlash, List.cons_append, hc]

/-- A path whose head is not a separator passes `stripLeadingSlash`
unchanged. -/
theorem stripLeadingSlash_not_slash (p : List Char)
    (h : startsWithSlash p = false) : stripLeadingSlash p = p := by
  simp [stripLeadingSlash, h]

/-- Except on paths beginning with `//`, normalizing twice is the same
as normalizing once (the priming GET re-normalizes the path). -/
theorem normalizePath_idem (p : List Char)
    (h : startsWithDoubleSlash p = false) :
    normalizePath (normalizePath p) = normalizePath p := by
  unfold normalizePath
  cases p with
  | nil => rfl
  | cons c t =>
    by_cases hc : c = '/'
    · subst hc
      cases t with
      | nil => rfl
      | cons c2 t2 =>
        have hc2 : ¬c2 = '/' := by simpa [startsWithDoubleSlash] using h
        rw [show stripLeadingSlash ('/' :: c2 :: t2) = c2 :: t2 from by
          simp [stripLeadingSlash, startsWithSlash]]
        rw [stripLeadingSlash_not_slash _ (startsWithSlash_ensureTrailingSlash c2 t2 hc2)]
        exact ensureTrailingSlash_idem _
    · rw [stripLeadingSlash_not_slash (c :: t) (by simp [startsWithSlash, hc])]
      rw [stripLeadingSlash_not_slash _ (startsWithSlash_ensureTrailingSlash c t hc)]
      exact ensureTrailingSlash_idem _

/-- Dropping while over a list ending in `/` (with the stop character `/`)
always stops at some `/`. -/
theorem dropWhile_append_slash (m : List Char) :
    ∃ t, (m ++ ['/']).dropWhile (fun c => c ≠ '/') = '/' :: t := by
  induction m with
  | nil => exact ⟨[], by simp [List.dropWhile]⟩
  | cons x xs ih =>
    by_cases hx : x = '/'
    · subst hx
      refine ⟨xs ++ ['/'], ?_⟩
      rw [List.cons_append, List.dropWhile_cons]
      simp
    · obtain ⟨t, ht⟩ := ih
      refine ⟨t, ?_⟩
      rw [List.cons_append, List.dropWhile_cons, if_pos (by simp [hx]), ht]

/-- The directory part of a path that starts with `/` ends with `/`. -/
theorem dirPart_ends_slash (bt : List Char) :
    ∃ q, dirPart ('/' :: bt) = q ++ ['/'] := by
  unfold dirPart
  obtain ⟨t, ht⟩ := dropWhile_append_slash bt.reverse
  rw [show ('/' :: bt).reverse = bt.reverse ++ ['/'] from by simp, ht]
  exact ⟨t.reverse, by simp⟩

/-- The head of a non-empty `dropWhile` result falsifies the predicate. -/
theorem dropWhile_head_false (p : Char → Bool) (l : List Char) (c : Char)
    (t : List Char) (h : l.dropWhile p = c :: t) : p c = false := by
  induction l with
  | nil => simp [List.dropWhile] at h
  | cons x xs ih =>
    rw [List.dropWhile_cons] at h
    by_cases hx : p x = true
    · rw [if_pos hx] at h
      exact ih h
    · rw [if_neg hx] at h
      cases h
      simpa using hx

/-! ## Claims -/

/-- Claim C4: for every response status code, `claim(submission_id,
username)` returns: on 201, tag ok with the response JSON as payload; on
403, coc_not_accepted; on 404, not_found; on 409, already_completed; on
423, blacklisted (all without payload); and on every other error status
(400–599) it raises an HTTP-status-derived error.  The response to the
real PATCH is the `s.count + 1`-st one, after the priming GET. -/
theorem claim_status_dispatch (api : BlossomAPI) (env : Env) (s : SessionState)
    (submission_id username : String) :
    ((env (s.count + 1)).status_code = 201 →
      (claim api env s submission_id username).1 =
        Except.ok { data := some (env (s.count + 1)).body,
                    status := BlossomStatus.ok }) ∧
    ((env (s.count + 1)).status_code = 403 →
      (claim api env s submission_id username).1 =
        Except.ok { data := none, status := BlossomStatus.coc_not_accepted }) ∧
    ((env (s.count + 1)).status_code = 404 →
      (claim api env s submission_id username).1 =
        Except.ok { data := none, status := BlossomStatus.not_found }) ∧
    ((env (s.count + 1)).status_code = 409 →
      (claim api env s submission_id username).1 =
        Except.ok { data := none, status := BlossomStatus.already_completed }) ∧
    ((env (s.count + 1)).status_code = 423 →
      (claim api env s submission_id username).1 =
        Except.ok { data := none, status := BlossomStatus.blacklisted }) ∧
    ((env (s.count + 1)).status_code ≠ 201 →
     (env (s.count + 1)).status_code ≠ 403 →
     (env (s.count + 1)).status_code ≠ 404 →
     (env (s.count + 1)).status_code ≠ 409 →
     (env (s.count + 1)).status_code ≠ 423 →
     400 ≤ (env (s.count + 1)).status_code →
     (env (s.count + 1)).status_code < 600 →
      (claim api env s submission_id username).1 =
        Except.error (ApiError.httpError (env (s.count + 1)).status_code)) := by
  refine ⟨?_, ?_, ?_, ?_, ?_, ?_⟩ <;>
    simp only [claim, BlossomAPI.patch, _call, send, raise_for_status]
  · intro h; simp [h]
  · intro h; simp [h]
  · intro h; simp [h]
  · intro h; simp [h]
  · intro h; simp [h]
  · intro h1 h2 h3 h4 h5 h6 h7
    simp [h1, h2, h3, h4, h5, h6, h7]

/-- Claim C4 witness: `claim("42", "bob")` against a server answering 423
returns `Result(tag := blacklisted, data := none)`. -/
theorem claim_status_dispatch_w :
    (claim apiX env423 s0 "42" "bob").1 =
      Except.ok { data := none, status := BlossomStatus.blacklisted } :=
  (claim_status_dispatch apiX env423 s0 "42" "bob").2.2.2.2.1 rfl

/-- Claim C5: for every response status code, `create_user(username)`
returns: on 201, tag ok with the response JSON as payload; on 422,
already_completed without payload; and on every other error status
(400–599, e.g. 500) it raises an HTTP-status-derived error. -/
theorem create_user_status_dispatch (api : BlossomAPI) (env : Env)
    (s : SessionState) (username : String) :
    ((env (s.count + 1)).status_code = 201 →
      (create_user api env s username).1 =
        Except.ok { data := some (env (s.count + 1)).body,
                    status := BlossomStatus.ok }) ∧
    ((env (s.count + 1)).status_code = 422 →
      (create_user api env s username).1 =
        Except.ok { data := none, status := BlossomStatus.already_completed }) ∧
    ((env (s.count + 1)).status_code ≠ 201 →
     (env (s.count + 1)).status_code ≠ 422 →
     400 ≤ (env (s.count + 1)).status_code →
     (env (s.count + 1)).status_code < 600 →
      (create_user api env s username).1 =
        Except.error (ApiError.httpError (env (s.count + 1)).status_code)) := by
  refine ⟨?_, ?_, ?_⟩ <;>
    simp only [create_user, BlossomAPI.post, _call, send, raise_for_status]
  · intro h; simp [h]
  · intro h; simp [h]
  · intro h1 h2 h3 h4
    simp [h1, h2, h3, h4]

/-- Claim C5 witness: `create_user("carol")` against 422 yields
already_completed with no payload; against 500 the call raises. -/
theorem create_user_status_dispatch_w :
    (create_user apiX env422 s0 "carol").1 =
      Except.ok { data := none, status := BlossomStatus.already_completed } ∧
    (create_user apiX env500 s0 "carol").1 =
      Except.error (ApiError.httpError 500) :=
  ⟨(create_user_status_dispatch apiX env422 s0 "carol").2.1 rfl,
   (create_user_status_dispatch apiX env500 s0 "carol").2.2
     (by decide) (by decide) (by decide) (by decide)⟩

/-- Claim C6: for every successful (non-raising) response to
`get_user(username)` whose body has a `"results"` list: if the list is
empty the call returns not_found with no payload, otherwise ok with the
first element as payload. -/
theorem get_user_results_dispatch (api : BlossomAPI) (env : Env)
    (s : SessionState) (username : String) (results : List JSON)
    (hok : ¬(400 ≤ (env s.count).status_code ∧ (env s.count).status_code < 600))
    (hbody : jsonField (env s.count).body "results" = some (JSON.arr results)) :
    (results = [] →
      (get_user api env s username).1 =
        Except.ok { data := none, status := BlossomStatus.not_found }) ∧
    (∀ x xs, results = x :: xs →
      (get_user api env s username).1 =
        Except.ok { data := some x, status := BlossomStatus.ok }) := by
  constructor
  · rintro rfl
    simp [get_user, BlossomAPI.get, _call, send, raise_for_status, hok, hbody]
  · rintro x xs rfl
    simp [get_user, BlossomAPI.get, _call, send, raise_for_status, hok, hbody]

/-- Claim C6 witness: `get_user("alice")` against a 200 response with
`results: []` returns `Result(tag := not_found, data := none)`. -/
theorem get_user_results_dispatch_w :
    (get_user apiX envResEmpty s0 "alice").1 =
      Except.ok { data := none, status := BlossomStatus.not_found } :=
  (get_user_results_dispatch apiX envResEmpty s0 "alice" [] (by decide) rfl).1 rfl

/-- Claim C7: `get_ocr_transcriptions(source)` sends the query parameter
`source`, defaulting to `"reddit"` when no source is given; on status
200 it returns ok with the response JSON as payload; on 400,
missing_prerequisite with the error body as payload; and on every other
error status (401–599) it raises an HTTP-status-derived error.  The GET
issues a single request, answered by `env s.count`. -/
theorem get_ocr_transcriptions_spec (api : BlossomAPI) (env : Env)
    (s : SessionState) (source? : Option String) :
    (source? = none →
      (get_ocr_transcriptions api env s source?).2.sent.map HttpRequest.params =
        s.sent.map HttpRequest.params ++ [[("source", JSON.str "reddit")]]) ∧
    ((env s.count).status_code = 200 →
      (get_ocr_transcriptions api env s source?).1 =
        Except.ok { data := some (env s.count).body,
                    status := BlossomStatus.ok }) ∧
    ((env s.count).status_code = 400 →
      (get_ocr_transcriptions api env s source?).1 =
        Except.ok { data := some (env s.count).body,
                    status := BlossomStatus.missing_prerequisite }) ∧
    ((env s.count).status_code ≠ 200 →
     (env s.count).status_code ≠ 400 →
     400 ≤ (env s.count).status_code →
     (env s.count).status_code < 600 →
      (get_ocr_transcriptions api env s source?).1 =
        Except.error (ApiError.httpError (env s.count).status_code)) := by
  refine ⟨?_, ?_, ?_, ?_⟩
  · rintro rfl
    simp [get_ocr_transcriptions, BlossomAPI.get, _call, send]
  · intro h
    simp [get_ocr_transcriptions, BlossomAPI.get, _call, send, h]
  · intro h
    simp [get_ocr_transcriptions, BlossomAPI.get, _call, send, h]
  · intro h1 h2 h3 h4
    simp [get_ocr_transcriptions, BlossomAPI.get, _call, send,
          raise_for_status, h1, h2, h3, h4]

/-- Claim C7 witness: with no source the query parameter is
`source=reddit`, and a 200 response yields ok with the body as payload. -/
theorem get_ocr_transcriptions_spec_w :
    (get_ocr_transcriptions apiX envOk s0 none).2.sent.map HttpRequest.params =
      [[("source", JSON.str "reddit")]] ∧
    (get_ocr_transcriptions apiX envOk s0 none).1 =
      Except.ok { data := some JSON.null, status := BlossomStatus.ok } :=
  ⟨(get_ocr_transcriptions_spec apiX envOk s0 none).1 rfl,
   (get_ocr_transcriptions_spec apiX envOk s0 none).2.1 rfl⟩

/-- Claim C8: construction fails with a `ValueError` exactly when at
least one of the four arguments is empty; when all four are non-empty it
succeeds and stores the credentials unchanged (the API key inside the
session's `Api-Key` authorization header). -/
theorem init_validation (email password api_key api_base_url : String) :
    ((∃ api, BlossomAPI.init email password api_key api_base_url =
        Except.ok api) ↔
      (email ≠ "" ∧ password ≠ "" ∧ api_key ≠ "" ∧ api_base_url ≠ "")) ∧
    (∀ api, BlossomAPI.init email password api_key api_base_url =
        Except.ok api →
      api.email = email ∧ api.password = password ∧
      api.base_url = api_base_url.data ∧
      api.authorization = "Api-Key " ++ api_key) := by
  unfold BlossomAPI.init
  by_cases h1 : email = "" <;> by_cases h2 : password = "" <;>
    by_cases h3 : api_key = "" <;> by_cases h4 : api_base_url = "" <;>
    simp [h1, h2, h3, h4]

/-- Claim C8 witness: a fully supplied client constructs, and an empty
email fails construction. -/
theorem init_validation_w :
    (∃ api, BlossomAPI.init "e" "pw" "k" "http://h/api/" = Except.ok api) ∧
    ¬(∃ api, BlossomAPI.init "" "pw" "k" "http://h/api/" = Except.ok api) :=
  ⟨(init_validation "e" "pw" "k" "http://h/api/").1.mpr (by decide),
   fun hex => ((init_validation "" "pw" "k" "http://h/api/").1.mp hex).1 rfl⟩

/-- Claim C1 counterexample: for the path `"//x"` the priming GET and
the real POST are issued to different URLs (the priming call normalizes
the already once-stripped path again), so the priming GET is not always
to "the same normalized path". -/
theorem call_priming_path_cex :
    (_call apiX envOk "POST" "//x".data none none s0).2.2.sent.map
        HttpRequest.url =
      ["http://h/api/x/".data, "http://h/x/".data] ∧
    "http://h/api/x/".data ≠ "http://h/x/".data :=
  ⟨rfl, by decide⟩

/-- Claim C1 (amended): a GET `_call` issues exactly one request; a
non-GET `_call` issues exactly one priming GET followed by exactly one
real request and nothing else (no retries), the priming GET sharing the
(credential-merged) body and the query; the priming GET's path is the
given path normalized twice, which equals the real request's
once-normalized path whenever the given path does not begin with `//`. -/
theorem call_request_sequence (api : BlossomAPI) (env : Env) (method : String)
    (path : List Char) (data? params? : Option Dict) (s : SessionState) :
    (method = "GET" →
      (_call api env method path data? params? s).2.2.sent =
        s.sent ++
          [{ method := "GET",
             url := urljoin api.base_url (normalizePath path),
             data := dictUpdate (data?.getD [])
               [("email", JSON.str api.email),
                ("password", JSON.str api.password)],
             params := params?.getD [] }] ∧
      (_call api env method path data? params? s).2.2.count = s.count + 1) ∧
    (method ≠ "GET" →
      (_call api env method path data? params? s).2.2.sent =
        s.sent ++
          [{ method := "GET",
             url := urljoin api.base_url (normalizePath (normalizePath path)),
             data := dictUpdate (dictUpdate (data?.getD [])
                 [("email", JSON.str api.email),
                  ("password", JSON.str api.password)])
               [("email", JSON.str api.email),
                ("password", JSON.str api.password)],
             params := params?.getD [] },
           { method := method,
             url := urljoin api.base_url (normalizePath path),
             data := (_call api env method path data? params? s).2.1,
             params := params?.getD [] }] ∧
      (_call api env method path data? params? s).2.2.count = s.count + 2 ∧
      (startsWithDoubleSlash path = false →
        urljoin api.base_url (normalizePath (normalizePath path)) =
          urljoin api.base_url (normalizePath path))) := by
  constructor
  · intro h
    subst h
    refine ⟨?_, ?_⟩ <;> simp [_call, send]
  · intro hm
    refine ⟨?_, ?_, ?_⟩
    · cases hj : jarLookup (jarUpdate s.cookies (env s.count).set_cookies)
          "csrftoken" <;>
        simp [_call, send, hm, hj]
    · simp [_call, send, hm]
    · intro hds
      rw [normalizePath_idem path hds]

/-- Claim C1 witness: at a concrete non-GET call exactly two requests go
out and the two URLs agree for a single-slash path; a concrete GET call
issues exactly one request. -/
theorem call_request_sequence_w :
    (_call apiX envOk "POST" "x".data none none s0).2.2.count = 0 + 2 ∧
    urljoin apiX.base_url (normalizePath (normalizePath "x".data)) =
      urljoin apiX.base_url (normalizePath "x".data) ∧
    (_call apiX envOk "GET" "x".data none none s0).2.2.count = 0 + 1 :=
  ⟨((call_request_sequence apiX envOk "POST" "x".data none none s0).2
      (by decide)).2.1,
   ((call_request_sequence apiX envOk "POST" "x".data none none s0).2
      (by decide)).2.2 (by decide),
   ((call_request_sequence apiX envOk "GET" "x".data none none s0).1 rfl).2⟩

/-- Claim C2 counterexample: the token is read from the session cookie
jar, not from the priming response.  Starting from a jar that already
holds `csrftoken = "old"`, a priming response that sets no cookie at all
still leads to `csrfmiddlewaretoken = "old"` in the real request's body,
where the claim says the field must be absent. -/
theorem call_csrf_from_jar_cex :
    (envOk 0).set_cookies = [] ∧
    dictLookup (_call apiX envOk "POST" "x".data none none sStale).2.1
        "csrfmiddlewaretoken" = some (JSON.str "old") :=
  ⟨rfl, rfl⟩

/-- Claim C2 (amended): for a non-GET `_call`, the CSRF token is read
from the session cookie jar as updated by the priming GET's response
(cookies from earlier requests persist there).  If the jar then holds a
`csrftoken`, the real request's body carries `csrfmiddlewaretoken` equal
to that jar value; if it does not, the body's `csrfmiddlewaretoken` is
exactly whatever the credential-merged caller body already had (absent
if the caller supplied none). -/
theorem call_csrf_token_source (api : BlossomAPI) (env : Env) (method : String)
    (path : List Char) (data? params? : Option Dict) (s : SessionState)
    (hm : method ≠ "GET") :
    (∀ tok,
      jarLookup (jarUpdate s.cookies (env s.count).set_cookies) "csrftoken" =
        some tok →
      dictLookup (_call api env method path data? params? s).2.1
        "csrfmiddlewaretoken" = some (JSON.str tok)) ∧
    (jarLookup (jarUpdate s.cookies (env s.count).set_cookies) "csrftoken" =
        none →
      dictLookup (_call api env method path data? params? s).2.1
          "csrfmiddlewaretoken" =
        dictLookup
          (dictUpdate (dictUpdate (data?.getD [])
              [("email", JSON.str api.email),
               ("password", JSON.str api.password)])
            [("email", JSON.str api.email),
             ("password", JSON.str api.password)])
          "csrfmiddlewaretoken") := by
  constructor
  · intro tok hj
    simp [_call, send, hm, hj, dictLookup_dictInsert_self]
  · intro hj
    simp [_call, send, hm, hj]

/-- Claim C2 witness: from a fresh jar, a priming response that sets
`csrftoken = "tok1"` makes the real request's body carry
`csrfmiddlewaretoken = "tok1"`. -/
theorem call_csrf_token_source_w :
    dictLookup (_call apiX envCk "POST" "x".data none none s0).2.1
        "csrfmiddlewaretoken" = some (JSON.str "tok1") :=
  (call_csrf_token_source apiX envCk "POST" "x".data none none s0
    (by decide)).1 "tok1" rfl

/-- Claim C3: every request issued by an invocation of `_call` (the
priming GET included) carries the stored `email` and `password` in its
body, overriding any caller-supplied values for those keys. -/
theorem call_bodies_have_credentials (api : BlossomAPI) (env : Env)
    (method : String) (path : List Char) (data? params? : Option Dict)
    (s : SessionState) :
    AllHaveCreds api
      ((_call api env method path data? params? s).2.2.sent.drop
        s.sent.length) := by
  by_cases h : method = "GET"
  · subst h
    simp [_call, send, AllHaveCreds, List.drop_left, dictUpdate,
          dictLookup_dictInsert_self, dictLookup_dictInsert_ne]
  · cases hj : jarLookup (jarUpdate s.cookies (env s.count).set_cookies)
        "csrftoken" <;>
      simp [_call, send, h, hj, AllHaveCreds, List.drop_left, dictUpdate,
            dictLookup_dictInsert_self, dictLookup_dictInsert_ne]

/-- Claim C9: path normalization strips one leading `/` and appends a
trailing `/` if absent, so for a path stem (non-empty, no leading or
trailing separator, no colon — the domain on which the `urljoin` model
is faithful) the three spellings `/foo`, `foo` and `foo/` all normalize
to `foo/` and hence join to the same URL, which ends in `/foo/`. -/
theorem path_normalization_spec (base stem : List Char)
    (hb : (splitSchemeSep base).isSome = true)
    (hne : stem ≠ [])
    (h1 : startsWithSlash stem = false)
    (h2 : endsWithSlash stem = false)
    (h3 : stem.contains ':' = false) :
    normalizePath ('/' :: stem) = stem ++ ['/'] ∧
    normalizePath stem = stem ++ ['/'] ∧
    normalizePath (stem ++ ['/']) = stem ++ ['/'] ∧
    ∃ pre, urljoin base (stem ++ ['/']) = pre ++ '/' :: (stem ++ ['/']) := by
  obtain ⟨c, t, rfl⟩ : ∃ c t, stem = c :: t := by
    cases stem with
    | nil => exact absurd rfl hne
    | cons c t => exact ⟨c, t, rfl⟩
  have hc : ¬c = '/' := by simpa [startsWithSlash] using h1
  refine ⟨?_, ?_, ?_, ?_⟩
  · simp [normalizePath, stripLeadingSlash, startsWithSlash,
          ensureTrailingSlash, h2]
  · simp [normalizePath, stripLeadingSlash, startsWithSlash, hc,
          ensureTrailingSlash, h2]
  · have he : endsWithSlash (c :: (t ++ ['/'])) = true := by
      unfold endsWithSlash
      rw [← List.cons_append, List.getLast?_concat]
      decide
    simp [normalizePath, stripLeadingSlash, startsWithSlash, hc,
          ensureTrailingSlash, he]
  · rw [Option.isSome_iff_exists] at hb
    obtain ⟨⟨scheme, rest⟩, hsp⟩ := hb
    simp only [urljoin, hsp]
    rw [show startsWithDoubleSlash ((c :: t) ++ ['/']) = false from by
      cases t <;> simp [startsWithDoubleSlash, hc]]
    rw [show startsWithSlash ((c :: t) ++ ['/']) = false from by
      simp [startsWithSlash, List.cons_append, hc]]
    cases hbp : rest.dropWhile (fun c => c ≠ '/') with
    | nil =>
      refine ⟨scheme ++ ':' :: '/' :: '/' ::
        rest.takeWhile (fun c => c ≠ '/'), ?_⟩
      simp [hbp]
    | cons b0 bt =>
      have hb0 : b0 = '/' := by
        have := dropWhile_head_false (fun c => c ≠ '/') rest b0 bt hbp
        simpa using this
      subst hb0
      obtain ⟨q, hq⟩ := dirPart_ends_slash bt
      refine ⟨scheme ++ ':' :: '/' :: '/' ::
        (rest.takeWhile (fun c => c ≠ '/') ++ q), ?_⟩
      simp [hbp, hq]

/-- Claim C9 witness: for the stem `foo` and the default base URL, the
three spellings normalize identically and the joined URL ends in
`/foo/`. -/
theorem path_normalization_spec_w :
    normalizePath ('/' :: "foo".data) = "foo".data ++ ['/'] ∧
    normalizePath "foo".data = "foo".data ++ ['/'] ∧
    normalizePath ("foo".data ++ ['/']) = "foo".data ++ ['/'] ∧
    ∃ pre, urljoin "http://localhost:8000/api/".data ("foo".data ++ ['/']) =
      pre ++ '/' :: ("foo".data ++ ['/']) :=
  path_normalization_spec "http://localhost:8000/api/".data "foo".data
    (by decide) (by decide) (by decide) (by decide) (by decide)

/-- Claim C10: the caller-supplied body dict is mutated in place
(modelled by `_call` returning the final value of the shared dict):
after any call it holds the stored `email` and `password`, and after a
non-GET call that found a `csrftoken` in the jar it also holds the
injected `csrfmiddlewaretoken`. -/
theorem call_mutates_caller_body (api : BlossomAPI) (env : Env)
    (method : String) (path : List Char) (data params : Dict)
    (s : SessionState) :
    dictLookup (_call api env method path (some data) (some params) s).2.1
        "email" = some (JSON.str api.email) ∧
    dictLookup (_call api env method path (some data) (some params) s).2.1
        "password" = some (JSON.str api.password) ∧
    (method ≠ "GET" → ∀ tok,
      jarLookup (jarUpdate s.cookies (env s.count).set_cookies) "csrftoken" =
        some tok →
      dictLookup (_call api env method path (some data) (some params) s).2.1
        "csrfmiddlewaretoken" = some (JSON.str tok)) := by
  refine ⟨?_, ?_, ?_⟩
  · by_cases h : method = "GET"
    · simp [_call, send, h, dictUpdate, dictLookup_dictInsert_self,
            dictLookup_dictInsert_ne]
    · cases hj : jarLookup (jarUpdate s.cookies (env s.count).set_cookies)
          "csrftoken" <;>
        simp [_call, send, h, hj, dictUpdate, dictLookup_dictInsert_self,
              dictLookup_dictInsert_ne]
  · by_cases h : method = "GET"
    · simp [_call, send, h, dictUpdate, dictLookup_dictInsert_self,
            dictLookup_dictInsert_ne]
    · cases hj : jarLookup (jarUpdate s.cookies (env s.count).set_cookies)
          "csrftoken" <;>
        simp [_call, send, h, hj, dictUpdate, dictLookup_dictInsert_self,
              dictLookup_dictInsert_ne]
  · intro hm tok hj
    simp [_call, send, hm, hj, dictLookup_dictInsert_self]

/-- Claim C10 witness: after a concrete POST whose priming response sets
`csrftoken = "tok1"`, the caller's dict holds the credentials and the
injected token. -/
theorem call_mutates_caller_body_w :
    dictLookup (_call apiX envCk "POST" "x".data (some []) (some []) s0).2.1
        "email" = some (JSON.str "e") ∧
    dictLookup (_call apiX envCk "POST" "x".data (some []) (some []) s0).2.1
        "csrfmiddlewaretoken" = some (JSON.str "tok1") :=
  ⟨(call_mutates_caller_body apiX envCk "POST" "x".data [] [] s0).1,
   (call_mutates_caller_body apiX envCk "POST" "x".data [] [] s0).2.2
     (by decide) "tok1" rfl⟩

end BlossomWrapper
